import Mathlib

/-!
Verification development for the upgradeable BPF loader of
`pkg/sealevel/bpf_loader.go`.

Shallow embedding conventions:
* Go byte slices are `List Nat` (each element a byte value `0..255`);
  `solana.PublicKey` values are their 32 raw bytes, i.e. `List Nat`.
* Machine integers (`uint32`, `uint64`) are `Nat` with explicit
  saturation where the source uses `safemath`.
* Fallible Go code returns `Except InstrErr` resp. `GoResult`; the
  extra `GoResult.goPanic` outcome models a Go runtime panic
  (nil-pointer dereference or an explicit panic call).
* Host scaffolding (`BorrowedAccount`, `InstructionCtx`, sysvars,
  `NativeInvoke`) is not part of `src/`; every definition standing in
  for it carries a doc comment starting with `Modelled from the spec:`.
-/

set_option maxRecDepth 100000

namespace Sealevel

deriving instance DecidableEq for Except

/-- A Solana public key, represented by its 32 raw bytes. -/
abbrev Pubkey := List Nat

/-- Instruction errors used by the loader (`InstrErr...` values in the
source; `NotEnoughAccountKeys` and `ArithmeticOverflow` come from the
host account/context accessors). -/
inductive InstrErr where
  | InvalidInstructionData
  | InvalidAccountData
  | InvalidArgument
  | AccountDataTooSmall
  | AccountAlreadyInitialized
  | Immutable
  | IncorrectAuthority
  | IncorrectProgramId
  | MissingRequiredSignature
  | AccountNotExecutable
  | ExecutableAccountNotRentExempt
  | InsufficientFunds
  | UnsupportedProgramId
  | NotEnoughAccountKeys
  | ArithmeticOverflow
  deriving DecidableEq, Repr

/-- Outcome of running a Go handler: normal return, an error return, or
a Go runtime panic. -/
inductive GoResult (α : Type) where
  | ok (a : α)
  | fail (e : InstrErr)
  | goPanic
  deriving DecidableEq, Repr

instance : Monad GoResult where
  pure := GoResult.ok
  bind x f := match x with
    | .ok a => f a
    | .fail e => .fail e
    | .goPanic => .goPanic

/-- Lift an `Except` returned by a checked call: the source checks the
error and returns it. -/
def liftE : Except InstrErr α → GoResult α
  | .ok a => .ok a
  | .error e => .fail e

/-- Models a Go `if cond { return err }` statement. -/
def failIf (c : Prop) [Decidable c] (e : InstrErr) : GoResult Unit :=
  if c then .fail e else .ok ()

/-- Models the source pattern at `bpf_loader.go:752`: the error of a
fallible call is discarded and the possibly-nil result is dereferenced,
which panics at runtime when the call failed. -/
def nilDeref : Except InstrErr α → GoResult α
  | .ok a => .ok a
  | .error _ => .goPanic

/-- Models dereferencing an `Option` produced by Go code that panics on
`none` (the `default:` branch of `MarshalWithEncoder` panics). -/
def panicOnNone : Option α → GoResult α
  | some a => .ok a
  | none => .goPanic

/-- Turn a handler outcome into an `Option` keeping only normal returns. -/
def GoResult.toOption : GoResult α → Option α
  | .ok a => some a
  | _ => none

/-- True exactly on normal returns. -/
def GoResult.isOk : GoResult α → Bool
  | .ok _ => true
  | _ => false

/-! ## Machine arithmetic (`pkg/safemath`) -/

/-- Largest `uint64` value. -/
def U64Max : Nat := 2 ^ 64 - 1

/-- `safemath.SaturatingAddU64`. -/
def satAddU64 (a b : Nat) : Nat := min (a + b) U64Max

/-- `safemath.SaturatingSubU64`; `Nat` subtraction already saturates at zero. -/
def satSubU64 (a b : Nat) : Nat := a - b

/-- Modelled from the spec: the host `CheckedAddLamports` accessor, a
checked `uint64` addition failing with an arithmetic-overflow error. -/
def checkedAddU64 (a b : Nat) : Except InstrErr Nat :=
  if a + b ≤ U64Max then .ok (a + b) else .error .ArithmeticOverflow

/-! ## Binary decoder / encoder primitives

The `bin` decoder of the external `gagliardetto/binary` package, per the
wire formats fixed in the spec (section 6): all integers little-endian,
`ReadBool` reads one byte and tests it against zero, `ReadByteSlice`
reads a 64-bit little-endian length followed by that many raw bytes,
and `WriteBytes(b, false)` emits the raw bytes with no length prefix. -/

/-- Read one byte. -/
def readByte : List Nat → Option (Nat × List Nat)
  | [] => none
  | b :: rest => some (b, rest)

/-- Read `n` raw bytes (`decoder.ReadBytes(n)`). -/
def readBytesN (n : Nat) (d : List Nat) : Option (List Nat × List Nat) :=
  if n ≤ d.length then some (d.take n, d.drop n) else none

/-- Read a `u32` little-endian (`decoder.ReadUint32(bin.LE)`). -/
def readU32LE (d : List Nat) : Option (Nat × List Nat) :=
  match readBytesN 4 d with
  | none => none
  | some (bs, rest) =>
    some (bs.getD 0 0 + bs.getD 1 0 * 256 + bs.getD 2 0 * 256 ^ 2 +
      bs.getD 3 0 * 256 ^ 3, rest)

/-- Read a `u64` little-endian (`decoder.ReadUint64(bin.LE)`). -/
def readU64LE (d : List Nat) : Option (Nat × List Nat) :=
  match readBytesN 8 d with
  | none => none
  | some (bs, rest) =>
    some (bs.getD 0 0 + bs.getD 1 0 * 256 + bs.getD 2 0 * 256 ^ 2 +
      bs.getD 3 0 * 256 ^ 3 + bs.getD 4 0 * 256 ^ 4 + bs.getD 5 0 * 256 ^ 5 +
      bs.getD 6 0 * 256 ^ 6 + bs.getD 7 0 * 256 ^ 7, rest)

/-- Read a `bool` (`decoder.ReadBool()`): one byte, nonzero means true. -/
def readBool (d : List Nat) : Option (Bool × List Nat) :=
  match readByte d with
  | none => none
  | some (b, rest) => some (b ≠ 0, rest)

/-- Read a length-prefixed byte slice (`decoder.ReadByteSlice()`):
a `u64` little-endian length followed by that many raw bytes. -/
def readByteSlice (d : List Nat) : Option (List Nat × List Nat) :=
  match readU64LE d with
  | none => none
  | some (n, rest) => readBytesN n rest

/-- Little-endian `u64` encoding (`encoder.WriteUint64(n, bin.LE)`). -/
def u64LEBytes (n : Nat) : List Nat :=
  [n % 256, n / 256 % 256, n / 256 ^ 2 % 256, n / 256 ^ 3 % 256,
   n / 256 ^ 4 % 256, n / 256 ^ 5 % 256, n / 256 ^ 6 % 256, n / 256 ^ 7 % 256]

/-! ## Loader state, sizes, codec (`bpf_loader.go:24-282`) -/

/-- `UpgradeableLoaderStateBuffer`. -/
structure UpgradeableLoaderStateBuffer where
  authorityAddress : Option Pubkey
  deriving DecidableEq, Repr

/-- `UpgradeableLoaderStateProgram`. -/
structure UpgradeableLoaderStateProgram where
  programDataAddress : Pubkey
  deriving DecidableEq, Repr

/-- `UpgradeableLoaderStateProgramData`. -/
structure UpgradeableLoaderStateProgramData where
  slot : Nat
  upgradeAuthorityAddress : Option Pubkey
  deriving DecidableEq, Repr

/-- `UpgradeableLoaderState`: like the Go struct it carries every
variant next to the `u32` tag (field `Type` in Go, `typ` here). -/
structure UpgradeableLoaderState where
  typ : Nat
  buffer : UpgradeableLoaderStateBuffer
  program : UpgradeableLoaderStateProgram
  programData : UpgradeableLoaderStateProgramData
  deriving DecidableEq, Repr

/-- The Go zero value of `UpgradeableLoaderState` (`new(...)`). -/
def stateZero : UpgradeableLoaderState :=
  { typ := 0
    buffer := { authorityAddress := none }
    program := { programDataAddress := List.replicate 32 0 }
    programData := { slot := 0, upgradeAuthorityAddress := none } }

/-- Tag constant `UpgradeableLoaderStateTypeUninitialized` (iota 0). -/
def stateTypeUninit : Nat := 0

/-- Tag constant `UpgradeableLoaderStateTypeBuffer` (iota 1). -/
def stateTypeBuffer : Nat := 1

/-- Tag constant `UpgradeableLoaderStateTypeProgram` (iota 2). -/
def stateTypeProgram : Nat := 2

/-- Tag constant `UpgradeableLoaderStateTypeProgramData` (iota 3). -/
def stateTypeProgramData : Nat := 3

/-- `upgradeableLoaderSizeOfBufferMetaData`. -/
def sizeOfBufferMetaData : Nat := 37

/-- `upgradeableLoaderSizeOfProgram`. -/
def sizeOfProgram : Nat := 36

/-- `upgradeableLoaderSizeOfProgramDataMetaData`. -/
def sizeOfProgramDataMetaData : Nat := 45

/-- `upgradeableLoaderSizeOfProgramData`. -/
def sizeOfProgramData (programLen : Nat) : Nat :=
  satAddU64 sizeOfProgramDataMetaData programLen

/-- `upgradeableLoaderSizeOfBuffer`. -/
def sizeOfBuffer (programLen : Nat) : Nat :=
  satAddU64 sizeOfBufferMetaData programLen

/-- `UpgradeableLoaderStateBuffer.UnmarshalWithDecoder`. -/
def bufferStateDecode (d : List Nat) :
    Option (UpgradeableLoaderStateBuffer × List Nat) :=
  match readBool d with
  | none => none
  | some (hasPubkey, rest) =>
    if hasPubkey then
      match readBytesN 32 rest with
      | none => none
      | some (pk, rest2) => some ({ authorityAddress := some pk }, rest2)
    else
      some ({ authorityAddress := none }, rest)

/-- `UpgradeableLoaderStateProgram.UnmarshalWithDecoder`. -/
def programStateDecode (d : List Nat) :
    Option (UpgradeableLoaderStateProgram × List Nat) :=
  match readBytesN 32 d with
  | none => none
  | some (pk, rest) => some ({ programDataAddress := pk }, rest)

/-- `UpgradeableLoaderStateProgramData.UnmarshalWithDecoder`. -/
def programDataStateDecode (d : List Nat) :
    Option (UpgradeableLoaderStateProgramData × List Nat) :=
  match readU64LE d with
  | none => none
  | some (slot, rest) =>
    match readBool rest with
    | none => none
    | some (hasPubkey, rest2) =>
      if hasPubkey then
        match readBytesN 32 rest2 with
        | none => none
        | some (pk, rest3) =>
          some ({ slot := slot, upgradeAuthorityAddress := some pk }, rest3)
      else
        some ({ slot := slot, upgradeAuthorityAddress := none }, rest2)

/-- `UpgradeableLoaderState.UnmarshalWithDecoder`: reads the `u32` tag,
then the variant payload into the matching field of the zero value;
tags above 3 fail (`InstrErrInvalidAccountData` inside the decoder,
collapsed to `none` here since `unmarshalUpgradeableLoaderState`
replaces every decoding error by `InvalidAccountData`). -/
def stateDecode (d : List Nat) : Option UpgradeableLoaderState :=
  match readU32LE d with
  | none => none
  | some (tag, rest) =>
    if tag = stateTypeUninit then
      some { stateZero with typ := tag }
    else if tag = stateTypeBuffer then
      match bufferStateDecode rest with
      | none => none
      | some (b, _) => some { stateZero with typ := tag, buffer := b }
    else if tag = stateTypeProgram then
      match programStateDecode rest with
      | none => none
      | some (p, _) => some { stateZero with typ := tag, program := p }
    else if tag = stateTypeProgramData then
      match programDataStateDecode rest with
      | none => none
      | some (pd, _) => some { stateZero with typ := tag, programData := pd }
    else
      none

/-- `unmarshalUpgradeableLoaderState`: any decoding failure becomes
`InstrErrInvalidAccountData`. -/
def unmarshalUpgradeableLoaderState (data : List Nat) :
    Except InstrErr UpgradeableLoaderState :=
  match stateDecode data with
  | some s => .ok s
  | none => .error .InvalidAccountData

/-- `UpgradeableLoaderState.MarshalWithEncoder` followed by
`marshalUpgradeableLoaderState`: the source writes ONLY the variant
payload -- it never writes the `u32` tag, and the `Buffer` and
`ProgramData` variants never write the one-byte option flag
(`WriteBytes(key, false)` emits the raw 32 bytes alone, and nothing at
all when the authority pointer is nil).  The `default:` branch of the
switch panics, modelled by `none`. -/
def marshalUpgradeableLoaderState (s : UpgradeableLoaderState) :
    Option (List Nat) :=
  if s.typ = stateTypeUninit then
    some []
  else if s.typ = stateTypeBuffer then
    some (match s.buffer.authorityAddress with
      | some a => a
      | none => [])
  else if s.typ = stateTypeProgram then
    some s.program.programDataAddress
  else if s.typ = stateTypeProgramData then
    some (u64LEBytes s.programData.slot ++
      (match s.programData.upgradeAuthorityAddress with
        | some a => a
        | none => []))
  else
    none

/-- The round trip named by the spec: decode, re-encode with the state
marshaller, decode the result. -/
def decodeEncodeDecode (b : List Nat) : Except InstrErr UpgradeableLoaderState :=
  match unmarshalUpgradeableLoaderState b with
  | .error e => .error e
  | .ok s =>
    match marshalUpgradeableLoaderState s with
    | none => .error .InvalidAccountData
    | some bytes => unmarshalUpgradeableLoaderState bytes

/-! ## Accounts and execution context -/

/-- Modelled from the spec: a borrowed account as seen through the host
accessors (`Owner`, `Key`, `Lamports`, `Data`, `IsExecutable`,
`IsWritable`, `IsInstructionAccountSigner`). -/
structure Account where
  key : Pubkey
  lamports : Nat
  data : List Nat
  owner : Pubkey
  executable : Bool
  writable : Bool
  signer : Bool
  deriving DecidableEq, Repr

/-- Modelled from the spec: the slice of the execution, transaction and
instruction contexts the loader consumes.  `accounts` are the
instruction accounts in order; `minimumBalance` is the rent sysvar
accessor; `derivedAddr` is the program-derived address the host returns
for `find_program_address([program key], loader id)`; `cpaResult` is
the outcome of `CreateProgramAddress`; `invokeEffect` is the host
transition applied by the nested `CreateAccount` invocation. -/
structure ExecCtx where
  accounts : List Account
  programId : Pubkey
  clockSlot : Nat
  minimumBalance : Nat → Nat
  featureDeprecateExecMetaUpdate : Bool
  derivedAddr : Pubkey
  cpaResult : Except InstrErr Pubkey
  invokeEffect : List Account → Except InstrErr (List Account)

/-- Modelled from the spec: `BorrowInstructionAccount` -- an
out-of-range index is reported as `NotEnoughAccountKeys`. -/
def borrowAcct (ctx : ExecCtx) (i : Nat) : Except InstrErr Account :=
  match ctx.accounts[i]? with
  | some a => .ok a
  | none => .error .NotEnoughAccountKeys

/-- Modelled from the spec: `IndexOfInstructionAccountInTransaction`
followed by `KeyOfAccountAtIndex`. -/
def keyOfInstrAcct (ctx : ExecCtx) (i : Nat) : Except InstrErr Pubkey :=
  (borrowAcct ctx i).map (·.key)

/-- Modelled from the spec: `IsInstructionAccountSigner`. -/
def isSignerAcct (ctx : ExecCtx) (i : Nat) : Except InstrErr Bool :=
  (borrowAcct ctx i).map (·.signer)

/-- Modelled from the spec: `CheckNumOfInstructionAccounts`. -/
def checkNumAccounts (ctx : ExecCtx) (n : Nat) : GoResult Unit :=
  failIf (ctx.accounts.length < n) .NotEnoughAccountKeys

/-- Modelled from the spec: the address of the rent sysvar account
(an arbitrary fixed 32-byte key). -/
def sysvarRentAddr : Pubkey := List.replicate 32 101

/-- Modelled from the spec: the address of the clock sysvar account. -/
def sysvarClockAddr : Pubkey := List.replicate 32 102

/-- Modelled from the spec: `checkAcctForRentSysvar` validates the
index position of the rent sysvar, else `InvalidArgument`. -/
def checkAcctForRentSysvar (ctx : ExecCtx) (i : Nat) : Except InstrErr Unit :=
  match ctx.accounts[i]? with
  | none => .error .NotEnoughAccountKeys
  | some a => if a.key = sysvarRentAddr then .ok () else .error .InvalidArgument

/-- Modelled from the spec: `checkAcctForClockSysvar`. -/
def checkAcctForClockSysvar (ctx : ExecCtx) (i : Nat) : Except InstrErr Unit :=
  match ctx.accounts[i]? with
  | none => .error .NotEnoughAccountKeys
  | some a => if a.key = sysvarClockAddr then .ok () else .error .InvalidArgument

/-- Modelled from the spec: `BorrowedAccount.SetState` writes the
serialized state into the prefix of the account data and fails with
`AccountDataTooSmall` when the data cannot hold it (spec section 4.1:
the codec writes into the prefix of the host-provided buffer). -/
def setStateBytes (data bytes : List Nat) : Except InstrErr (List Nat) :=
  if data.length < bytes.length then .error .AccountDataTooSmall
  else .ok (bytes ++ data.drop bytes.length)

/-- `setUpgradeableLoaderAccountState`: marshal the state (panicking on
an invalid tag like the source) and store it through `SetState`. -/
def setLoaderAccountState (data : List Nat) (s : UpgradeableLoaderState) :
    GoResult (List Nat) := do
  let bytes ← panicOnNone (marshalUpgradeableLoaderState s)
  liftE (setStateBytes data bytes)

/-- Go `copy(data[off:e], src)`: writes `min (e - off) src.length`
bytes; used with `off ≤ e ≤ data.length`. -/
def copyInto (data : List Nat) (off : Nat) (src : List Nat) (e : Nat) :
    List Nat :=
  data.take off ++ src.take (min (e - off) src.length) ++
    data.drop (off + min (e - off) src.length)

/-- Modelled from the spec: `SetDataLength` resizes the account data,
zero-filling any bytes a growth adds. -/
def goResize (data : List Nat) (n : Nat) : List Nat :=
  data.take n ++ List.replicate (n - data.length) 0

/-- Replace instruction account `i` by `f` of its current value
(mutation through a borrowed account). -/
def updAcct (l : List Account) (i : Nat) (f : Account → Account) :
    List Account :=
  match l[i]? with
  | some a => l.set i (f a)
  | none => l

/-- The data of a buffer after a successful in-place write of `bytes`
at offset `off`: the written segment holds `bytes`, everything else is
untouched. -/
def writtenData (data : List Nat) (off : Nat) (bytes : List Nat) : List Nat :=
  data.take off ++ bytes ++ data.drop (off + bytes.length)

/-! ## Instruction payloads (`bpf_loader.go:31-99`) -/

/-- `UpgradeableLoaderInstrWrite`. -/
structure UpgradeableLoaderInstrWrite where
  offset : Nat
  bytes : List Nat
  deriving DecidableEq, Repr

/-- `UpgradeableLoaderInstrDeployWithMaxDataLen`. -/
structure UpgradeableLoaderInstrDeployWithMaxDataLen where
  maxDataLen : Nat
  deriving DecidableEq, Repr

/-- `UpgradeableLoaderInstrWrite.UnmarshalWithDecoder`. -/
def writeInstrDecode (d : List Nat) : Option UpgradeableLoaderInstrWrite :=
  match readU32LE d with
  | none => none
  | some (off, rest) =>
    match readByteSlice rest with
    | none => none
    | some (bs, _) => some { offset := off, bytes := bs }

/-- `UpgradeableLoaderInstrDeployWithMaxDataLen.UnmarshalWithDecoder`. -/
def deployInstrDecode (d : List Nat) :
    Option UpgradeableLoaderInstrDeployWithMaxDataLen :=
  match readU64LE d with
  | none => none
  | some (n, _) => some { maxDataLen := n }

/-- Modelled from the spec: `MaxPermittedDataLength` is defined outside
the snippet; the canonical runtime value is 10 MiB. -/
def maxPermittedDataLength : Nat := 10 * 1024 * 1024

/-! ## Handlers (`bpf_loader.go:284-931`) -/

/-- `writeProgramData`: bounds-check with saturating arithmetic, then
copy into instruction account 0. -/
def writeProgramData (accts : List Account) (programDataOffset : Nat)
    (bytes : List Nat) : Except InstrErr (List Account) :=
  match accts[0]? with
  | none => .error .NotEnoughAccountKeys
  | some program =>
    let writeOffset := satAddU64 programDataOffset bytes.length
    if program.data.length < writeOffset then .error .AccountDataTooSmall
    else .ok (accts.set 0
      { program with data := copyInto program.data programDataOffset bytes writeOffset })

/-- `UpgradeableLoaderInitializeBuffer` (`bpf_loader.go:355-391`).
No signer check appears anywhere in this handler. -/
def upgradeableLoaderInitBuffer (ctx : ExecCtx) : GoResult (List Account) := do
  checkNumAccounts ctx 2
  let buffer ← liftE (borrowAcct ctx 0)
  let state ← liftE (unmarshalUpgradeableLoaderState buffer.data)
  failIf (¬ state.typ = stateTypeUninit) .AccountAlreadyInitialized
  let authorityKey ← liftE (keyOfInstrAcct ctx 1)
  let newData ← setLoaderAccountState buffer.data
    { state with typ := stateTypeBuffer
                 buffer := { authorityAddress := some authorityKey } }
  pure (updAcct ctx.accounts 0 (fun a => { a with data := newData }))

/-- The authority gate of `UpgradeableLoaderWrite`
(`bpf_loader.go:409-440`): `Buffer` tag required, a nil authority is
`Immutable`, a mismatched authority is `IncorrectAuthority`, a
non-signing authority is `MissingRequiredSignature`; any other tag is
`InvalidAccountData`. -/
def writeAuthorityCheck (state : UpgradeableLoaderState)
    (authorityKeyE : Except InstrErr Pubkey)
    (signerE : Except InstrErr Bool) : GoResult Unit :=
  if state.typ = stateTypeBuffer then
    match state.buffer.authorityAddress with
    | none => .fail .Immutable
    | some a => do
      let authorityKey ← liftE authorityKeyE
      failIf (¬ a = authorityKey) .IncorrectAuthority
      let isSigner ← liftE signerE
      failIf (¬ isSigner = true) .MissingRequiredSignature
  else .fail .InvalidAccountData

/-- `UpgradeableLoaderWrite` (`bpf_loader.go:393-444`). -/
def upgradeableLoaderWrite (ctx : ExecCtx)
    (write : UpgradeableLoaderInstrWrite) : GoResult (List Account) := do
  checkNumAccounts ctx 2
  let buffer ← liftE (borrowAcct ctx 0)
  let state ← liftE (unmarshalUpgradeableLoaderState buffer.data)
  writeAuthorityCheck state (keyOfInstrAcct ctx 1) (isSignerAcct ctx 1)
  liftE (writeProgramData ctx.accounts
    (sizeOfBufferMetaData + write.offset) write.bytes)

/-- The program-account check of `UpgradeableLoaderUpgrade`
(`bpf_loader.go:739-745`). -/
def upgradeProgramCheck (programState : UpgradeableLoaderState)
    (programDataKey : Pubkey) : GoResult Unit :=
  if programState.typ = stateTypeProgram then
    failIf (¬ programState.program.programDataAddress = programDataKey)
      .InvalidArgument
  else .fail .InvalidAccountData

/-- The buffer-account check of `UpgradeableLoaderUpgrade`
(`bpf_loader.go:753-766`): a nil or mismatched authority is
`IncorrectAuthority`; a non-`Buffer` tag is `InvalidArgument`. -/
def upgradeBufferCheck (bufferState : UpgradeableLoaderState)
    (authorityKey : Pubkey) (signerE : Except InstrErr Bool) :
    GoResult Unit :=
  if bufferState.typ = stateTypeBuffer then do
    failIf (¬ bufferState.buffer.authorityAddress = some authorityKey)
      .IncorrectAuthority
    let isSigner ← liftE signerE
    failIf (¬ isSigner = true) .MissingRequiredSignature
  else .fail .InvalidArgument

/-- The program-data check of `UpgradeableLoaderUpgrade`
(`bpf_loader.go:801-820`). -/
def upgradeProgramDataCheck (pdState : UpgradeableLoaderState)
    (clockSlot : Nat) (authorityKey : Pubkey)
    (signerE : Except InstrErr Bool) : GoResult Unit :=
  if pdState.typ = stateTypeProgramData then do
    failIf (clockSlot = pdState.programData.slot) .InvalidArgument
    (match pdState.programData.upgradeAuthorityAddress with
      | none => GoResult.fail .Immutable
      | some a => failIf (¬ a = authorityKey) .IncorrectAuthority)
    let isSigner ← liftE signerE
    failIf (¬ isSigner = true) .MissingRequiredSignature
  else .fail .InvalidAccountData

/-- `UpgradeableLoaderUpgrade` (`bpf_loader.go:672-875`).  Two source
quirks are preserved: the decode error of the buffer state is discarded
(line 752), making a failed decode a nil dereference (`nilDeref`); and
the new program-data state is built without assigning its `Type` tag
(line 824), so it marshals as the zero-tagged `Uninitialized` state. -/
def upgradeableLoaderUpgrade (ctx : ExecCtx) : GoResult (List Account) := do
  checkNumAccounts ctx 3
  let programDataKey ← liftE (keyOfInstrAcct ctx 0)
  liftE (checkAcctForRentSysvar ctx 4)
  liftE (checkAcctForClockSysvar ctx 5)
  checkNumAccounts ctx 7
  let authorityKey ← liftE (keyOfInstrAcct ctx 6)
  let program ← liftE (borrowAcct ctx 1)
  failIf (¬ program.executable = true) .AccountNotExecutable
  failIf (¬ program.writable = true) .InvalidArgument
  failIf (¬ program.owner = ctx.programId) .IncorrectProgramId
  let programState ← liftE (unmarshalUpgradeableLoaderState program.data)
  upgradeProgramCheck programState programDataKey
  let buffer ← liftE (borrowAcct ctx 2)
  let bufferState ← nilDeref (unmarshalUpgradeableLoaderState buffer.data)
  upgradeBufferCheck bufferState authorityKey (isSignerAcct ctx 6)
  let bufferLamports := buffer.lamports
  let bufferDataLen := satSubU64 buffer.data.length sizeOfBufferMetaData
  failIf (buffer.data.length < sizeOfBufferMetaData ∨ bufferDataLen = 0)
    .InvalidAccountData
  let programData ← liftE (borrowAcct ctx 0)
  let minBalance := ctx.minimumBalance programData.data.length
  let programDataBalanceRequired := if minBalance > 1 then minBalance else 1
  failIf (programData.data.length < sizeOfProgramData bufferDataLen)
    .AccountDataTooSmall
  failIf (satAddU64 programData.lamports bufferLamports <
    programDataBalanceRequired) .InsufficientFunds
  let programDataState ← liftE (unmarshalUpgradeableLoaderState programData.data)
  upgradeProgramDataCheck programDataState ctx.clockSlot authorityKey
    (isSignerAcct ctx 6)
  let newState : UpgradeableLoaderState :=
    { stateZero with programData :=
      { slot := ctx.clockSlot, upgradeAuthorityAddress := some authorityKey } }
  let pdData1 ← setLoaderAccountState programData.data newState
  let dstEnd := satAddU64 sizeOfProgramDataMetaData bufferDataLen
  failIf (pdData1.length < dstEnd) .AccountDataTooSmall
  failIf (pdData1.length < sizeOfBufferMetaData) .AccountDataTooSmall
  let pdData2 := copyInto pdData1 sizeOfProgramDataMetaData
    (buffer.data.drop sizeOfBufferMetaData) dstEnd
  let pdData3 := pdData2.take dstEnd ++ List.replicate (pdData2.length - dstEnd) 0
  let spill ← liftE (borrowAcct ctx 3)
  let spillLamports := satSubU64 (satAddU64 programData.lamports bufferLamports)
    programDataBalanceRequired
  let spillNew ← liftE (checkedAddU64 spill.lamports spillLamports)
  pure (updAcct (updAcct (updAcct (updAcct (updAcct ctx.accounts
    0 (fun a => { a with data := pdData3 }))
    3 (fun a => { a with lamports := spillNew }))
    2 (fun a => { a with lamports := 0 }))
    0 (fun a => { a with lamports := programDataBalanceRequired }))
    2 (fun a => { a with data := goResize a.data (sizeOfBuffer 0) }))

/-- Mismatch test of `DeployWithMaxDataLen` (`bpf_loader.go:537`):
fails only when both authorities are present and differ. -/
def authMismatch (x y : Option Pubkey) : Bool :=
  match x, y with
  | some a, some b => a != b
  | _, _ => false

/-- `UpgradeableLoaderDeployWithMaxDataLen` (`bpf_loader.go:446-670`).
Source quirks preserved: the buffer state is decoded from the PROGRAM
account data (line 528); the authority key is read from instruction
account 1 (line 488); the payer `CheckedAddLamports` error is discarded
(line 586). -/
def upgradeableLoaderDeploy (ctx : ExecCtx)
    (deploy : UpgradeableLoaderInstrDeployWithMaxDataLen) :
    GoResult (List Account) := do
  checkNumAccounts ctx 4
  let _payerKey ← liftE (keyOfInstrAcct ctx 0)
  let programDataKey ← liftE (keyOfInstrAcct ctx 1)
  liftE (checkAcctForRentSysvar ctx 4)
  liftE (checkAcctForClockSysvar ctx 5)
  checkNumAccounts ctx 8
  let authorityKey : Option Pubkey := ctx.accounts[1]?.map (·.key)
  let program ← liftE (borrowAcct ctx 2)
  let programAcctState ← liftE (unmarshalUpgradeableLoaderState program.data)
  failIf (¬ programAcctState.typ = stateTypeUninit) .AccountAlreadyInitialized
  failIf (program.data.length < sizeOfProgram) .AccountDataTooSmall
  failIf (program.lamports < ctx.minimumBalance program.data.length)
    .ExecutableAccountNotRentExempt
  let buffer ← liftE (borrowAcct ctx 3)
  let bufferAcctState ← liftE (unmarshalUpgradeableLoaderState program.data)
  failIf (¬ bufferAcctState.typ = stateTypeBuffer) .InvalidArgument
  failIf (authMismatch bufferAcctState.buffer.authorityAddress authorityKey = true)
    .IncorrectAuthority
  let isSigner ← liftE (isSignerAcct ctx 7)
  failIf (¬ isSigner = true) .MissingRequiredSignature
  let bufferDataLen := satSubU64 buffer.data.length sizeOfBufferMetaData
  let programDataLen := sizeOfProgramData deploy.maxDataLen
  failIf (buffer.data.length < sizeOfBufferMetaData ∨ bufferDataLen = 0)
    .InvalidAccountData
  failIf (deploy.maxDataLen < bufferDataLen) .AccountDataTooSmall
  failIf (programDataLen > maxPermittedDataLength) .InvalidArgument
  failIf (¬ ctx.derivedAddr = programDataKey) .InvalidArgument
  let payer ← liftE (borrowAcct ctx 0)
  let payerNew := match checkedAddU64 payer.lamports buffer.lamports with
    | .ok v => v
    | .error _ => payer.lamports
  let accts1 := updAcct (updAcct ctx.accounts
    0 (fun a => { a with lamports := payerNew }))
    3 (fun a => { a with lamports := 0 })
  let _signerKey ← liftE ctx.cpaResult
  let accts2 ← liftE (ctx.invokeEffect accts1)
  let programData ← liftE (match accts2[1]? with
    | some a => Except.ok a
    | none => Except.error InstrErr.NotEnoughAccountKeys)
  let pdState : UpgradeableLoaderState :=
    { stateZero with typ := stateTypeProgramData
                     programData := { slot := ctx.clockSlot
                                      upgradeAuthorityAddress := authorityKey } }
  let pdData1 ← setLoaderAccountState programData.data pdState
  let dstEnd := satAddU64 sizeOfProgramDataMetaData bufferDataLen
  failIf (pdData1.length < dstEnd) .AccountDataTooSmall
  failIf (pdData1.length < sizeOfBufferMetaData) .AccountDataTooSmall
  let pdData2 := copyInto pdData1 sizeOfProgramDataMetaData
    (buffer.data.drop sizeOfBufferMetaData) dstEnd
  let accts3 := updAcct accts2 1 (fun a => { a with data := pdData2 })
  let accts4 := updAcct accts3 3
    (fun a => { a with data := goResize a.data (sizeOfBuffer 0) })
  let progState : UpgradeableLoaderState :=
    { stateZero with typ := stateTypeProgram
                     program := { programDataAddress := programDataKey } }
  let progData1 ← setLoaderAccountState program.data progState
  let accts5 := updAcct accts4 2 (fun a => { a with data := progData1 })
  pure (if ctx.featureDeprecateExecMetaUpdate then accts5
    else updAcct accts5 2 (fun a => { a with executable := true }))

/-- `ProcessUpgradeableLoaderInstruction` (`bpf_loader.go:877-931`). -/
def processUpgradeableLoaderInstruction (ctx : ExecCtx)
    (instrData : List Nat) : GoResult (List Account) :=
  match readU32LE instrData with
  | none => .fail .InvalidInstructionData
  | some (instrType, rest) =>
    if instrType = 0 then upgradeableLoaderInitBuffer ctx
    else if instrType = 1 then
      match writeInstrDecode rest with
      | none => .fail .InvalidInstructionData
      | some w => upgradeableLoaderWrite ctx w
    else if instrType = 2 then
      match deployInstrDecode rest with
      | none => .fail .InvalidInstructionData
      | some dep => upgradeableLoaderDeploy ctx dep
    else if instrType = 3 then upgradeableLoaderUpgrade ctx
    else .fail .InvalidInstructionData

/-! ## Concrete scenario data -/

/-- A fixed authority key. -/
def keyA : Pubkey := List.replicate 32 7

/-- A fixed program-data account key. -/
def keyPd : Pubkey := List.replicate 32 9

/-- A fixed program account key. -/
def keyProg : Pubkey := List.replicate 32 11

/-- A fixed buffer account key. -/
def keyBuf : Pubkey := List.replicate 32 13

/-- A fixed spill account key. -/
def keySpill : Pubkey := List.replicate 32 15

/-- The loader program id. -/
def loaderKey : Pubkey := List.replicate 32 17

/-- A fixed payer account key. -/
def keyPayer : Pubkey := List.replicate 32 19

/-- A fixed system-program key. -/
def keySys : Pubkey := List.replicate 32 21

/-- Helper building an account value. -/
def mkAcct (k : Pubkey) (l : Nat) (d : List Nat) (ow : Pubkey)
    (ex wr sg : Bool) : Account :=
  { key := k, lamports := l, data := d, owner := ow,
    executable := ex, writable := wr, signer := sg }

/-- The all-empty account, used as the `getD` fallback. -/
def acctZero : Account := mkAcct [] 0 [] [] false false false

/-- A valid `ProgramData` record: tag 3, slot 42, authority `keyA`,
one payload byte (46 bytes in total, `= sizeOfProgramData 1`). -/
def pdDataEx : List Nat := [3, 0, 0, 0] ++ u64LEBytes 42 ++ [1] ++ keyA ++ [0]

/-- A valid `Buffer` record with authority `keyA` and one payload byte
(38 bytes). -/
def bufDataEx : List Nat := [1, 0, 0, 0, 1] ++ keyA ++ [171]

/-- A valid `Program` record pointing at `keyPd` (36 bytes). -/
def progDataEx : List Nat := [2, 0, 0, 0] ++ keyPd

/-- The program-data account of the `Upgrade` scenarios. -/
def pdAcctEx : Account := mkAcct keyPd 100 pdDataEx loaderKey false true false

/-- The program account of the `Upgrade` scenarios. -/
def progAcctEx : Account := mkAcct keyProg 5 progDataEx loaderKey true true false

/-- The buffer account of the `Upgrade` scenarios. -/
def bufAcctEx : Account := mkAcct keyBuf 50 bufDataEx loaderKey false true false

/-- The spill account of the `Upgrade` scenarios. -/
def spillAcctEx : Account := mkAcct keySpill 0 [] loaderKey false true false

/-- The rent sysvar account. -/
def rentAcctEx : Account := mkAcct sysvarRentAddr 1 [] loaderKey false false false

/-- The clock sysvar account. -/
def clockAcctEx : Account := mkAcct sysvarClockAddr 1 [] loaderKey false false false

/-- The signing authority account (`keyA`). -/
def authAcctEx : Account := mkAcct keyA 1 [] loaderKey false false true

/-- An `Upgrade` context in which every precondition holds: 7 accounts
`[programData, program, buffer, spill, rent, clock, authority]`,
`clock.slot = 43` against a stored slot of 42, authority signed,
rent minimum balance 5. -/
def upgradeCtxEx : ExecCtx :=
  { accounts :=
      [pdAcctEx, progAcctEx, bufAcctEx, spillAcctEx, rentAcctEx, clockAcctEx,
       authAcctEx]
    programId := loaderKey
    clockSlot := 43
    minimumBalance := fun _ => 5
    featureDeprecateExecMetaUpdate := false
    derivedAddr := keyPd
    cpaResult := .ok keyPd
    invokeEffect := fun l => .ok l }

/-- The accounts produced by the successful `Upgrade` on
`upgradeCtxEx`: program-data holds the copied payload byte 171 at
offset 45 (its state PREFIX is untouched), the buffer is drained and
truncated to 37 bytes, the spill received 145 lamports. -/
def upgradeCtxExOut : List Account :=
  [mkAcct keyPd 5 ([3, 0, 0, 0] ++ u64LEBytes 42 ++ [1] ++ keyA ++ [171])
    loaderKey false true false,
   progAcctEx,
   mkAcct keyBuf 0 ([1, 0, 0, 0, 1] ++ keyA) loaderKey false true false,
   mkAcct keySpill 145 [] loaderKey false true false,
   rentAcctEx, clockAcctEx, authAcctEx]

/-- Buffer account data with 100 payload bytes (`bufferDataLen = 100`). -/
def bufDataC3 : List Nat := [1, 0, 0, 0, 1] ++ keyA ++ List.replicate 100 171

/-- A `DeployWithMaxDataLen` context: 8 accounts
`[payer, programData, program, buffer, rent, clock, system, authority]`,
the program account `Uninitialized` with 36 bytes and enough lamports,
the buffer account a valid `Buffer` with authority `keyA` (signed) and
`bufferDataLen = 100`. -/
def deployCtxEx : ExecCtx :=
  { accounts :=
      [mkAcct keyPayer 10 [] loaderKey false true true,
       mkAcct keyPd 0 [] loaderKey false true false,
       mkAcct keyProg 10 (List.replicate 36 0) loaderKey false true false,
       mkAcct keyBuf 10 bufDataC3 loaderKey false true false,
       rentAcctEx, clockAcctEx,
       mkAcct keySys 1 [] loaderKey false false false,
       authAcctEx]
    programId := loaderKey
    clockSlot := 43
    minimumBalance := fun _ => 5
    featureDeprecateExecMetaUpdate := false
    derivedAddr := keyPd
    cpaResult := .ok keyPd
    invokeEffect := fun l => .ok l }

/-- An `Upgrade` context identical to `upgradeCtxEx` except that the
buffer account data carries the unknown state tag 4. -/
def upgradeCtxC4 : ExecCtx :=
  { upgradeCtxEx with accounts :=
      upgradeCtxEx.accounts.set 2 (mkAcct keyBuf 50 [4, 0, 0, 0] loaderKey false true false) }

/-- Sum of the lamports of the three balance-mutated `Upgrade` accounts
(program-data, buffer, spill). -/
def lamSum3 (accts : List Account) : Nat :=
  (accts.getD 0 acctZero).lamports + (accts.getD 2 acctZero).lamports +
    (accts.getD 3 acctZero).lamports

/-- `upgradeCtxEx` with maximal program-data and buffer lamports, so
that the saturating addition at `bpf_loader.go:853` saturates. -/
def upgradeCtxC6 : ExecCtx :=
  { upgradeCtxEx with accounts :=
      (upgradeCtxEx.accounts.set 0 (mkAcct keyPd (2 ^ 64 - 1) pdDataEx loaderKey false true false)).set 2 (mkAcct keyBuf (2 ^ 64 - 1) bufDataEx loaderKey false true false) }

/-- `upgradeCtxEx` with `clock.slot = 42`, equal to the stored
program-data slot. -/
def upgradeCtxC8 : ExecCtx := { upgradeCtxEx with clockSlot := 42 }

/-- The decoded `Program` state of `progDataEx`. -/
def sProgEx : UpgradeableLoaderState :=
  { stateZero with typ := 2, program := { programDataAddress := keyPd } }

/-- The decoded `Buffer` state of `bufDataEx` (authority `keyA`). -/
def sBufEx : UpgradeableLoaderState :=
  { stateZero with typ := 1, buffer := { authorityAddress := some keyA } }

/-- The decoded `ProgramData` state of `pdDataEx` (slot 42). -/
def sPdEx : UpgradeableLoaderState :=
  { stateZero with
      typ := 3
      programData := { slot := 42, upgradeAuthorityAddress := some keyA } }

/-- A `Buffer` record with authority `keyA` and 4 payload bytes
(41 bytes in total). -/
def writeBufDataEx : List Nat := [1, 0, 0, 0, 1] ++ keyA ++ [0, 0, 0, 0]

/-- The buffer account of the `Write` scenarios. -/
def writeBufAcctEx : Account := mkAcct keyBuf 10 writeBufDataEx loaderKey false true false

/-- A `Write` context: buffer plus signing authority `keyA`. -/
def writeCtxEx : ExecCtx :=
  { upgradeCtxEx with accounts := [writeBufAcctEx, authAcctEx] }

/-- A buffer whose `Buffer` record has authority `None`
(bytes `01 00 00 00 00`). -/
def immutBufAcctEx : Account :=
  mkAcct keyBuf 10 [1, 0, 0, 0, 0] loaderKey false true false

/-- The decoded state of `immutBufAcctEx`: `Buffer` with no authority. -/
def sImmutEx : UpgradeableLoaderState := { stateZero with typ := 1 }

/-- A `Write` context against the immutable buffer. -/
def writeCtxImmut : ExecCtx :=
  { upgradeCtxEx with accounts := [immutBufAcctEx, authAcctEx] }

/-- A 2-account `InitializeBuffer` context whose buffer account is a
minimal `Uninitialized` record of only 4 bytes. -/
def initCtxC10 : ExecCtx :=
  { upgradeCtxEx with accounts :=
      [mkAcct keyBuf 10 [0, 0, 0, 0] loaderKey false true false,
       mkAcct keyA 1 [] loaderKey false false false] }

/-- The buffer account of the second `InitializeBuffer` scenario:
`Uninitialized` with 36 bytes of data. -/
def c10bBufAcct : Account :=
  mkAcct keyBuf 10 (List.replicate 36 0) loaderKey false true false

/-- A NON-signing authority account for `InitializeBuffer`. -/
def c10bAuthAcct : Account := mkAcct keyA 1 [] loaderKey false false false

/-- An `InitializeBuffer` context with a large-enough buffer and a
non-signing authority. -/
def initCtxC10b : ExecCtx :=
  { upgradeCtxEx with accounts := [c10bBufAcct, c10bAuthAcct] }

/-! ## General lemmas on the embedding -/

@[simp] theorem ok_bind (a : α) (f : α → GoResult β) :
    (GoResult.ok a >>= f) = f a := rfl

@[simp] theorem fail_bind (e : InstrErr) (f : α → GoResult β) :
    (GoResult.fail e >>= f) = .fail e := rfl

@[simp] theorem goPanic_bind (f : α → GoResult β) :
    ((GoResult.goPanic : GoResult α) >>= f) = .goPanic := rfl

@[simp] theorem pure_eq_ok (a : α) : (pure a : GoResult α) = .ok a := rfl

theorem bind_eq_ok {x : GoResult α} {f : α → GoResult β} {b : β} :
    (x >>= f) = .ok b ↔ ∃ a, x = .ok a ∧ f a = .ok b := by
  cases x <;> simp [Bind.bind]

@[simp] theorem liftE_eq_ok {x : Except InstrErr α} {a : α} :
    liftE x = .ok a ↔ x = .ok a := by
  cases x <;> simp [liftE]

@[simp] theorem liftE_ok (a : α) : liftE (.ok a) = .ok a := rfl

@[simp] theorem liftE_error (e : InstrErr) :
    (liftE (.error e) : GoResult α) = .fail e := rfl

@[simp] theorem failIf_eq_ok (c : Prop) [Decidable c] (e : InstrErr) {u : Unit} :
    failIf c e = .ok u ↔ ¬ c := by
  unfold failIf; split <;> simp_all

@[simp] theorem failIf_true (c : Prop) [Decidable c] (e : InstrErr) (h : c) :
    failIf c e = .fail e := by
  unfold failIf; simp [h]

@[simp] theorem failIf_false (c : Prop) [Decidable c] (e : InstrErr) (h : ¬ c) :
    failIf c e = .ok () := by
  unfold failIf; simp [h]

@[simp] theorem nilDeref_eq_ok {x : Except InstrErr α} {a : α} :
    nilDeref x = .ok a ↔ x = .ok a := by
  cases x <;> simp [nilDeref]

@[simp] theorem nilDeref_ok (a : α) : nilDeref (.ok a) = .ok a := rfl

@[simp] theorem nilDeref_error (e : InstrErr) :
    (nilDeref (.error e) : GoResult α) = .goPanic := rfl

@[simp] theorem panicOnNone_eq_ok {x : Option α} {a : α} :
    panicOnNone x = .ok a ↔ x = some a := by
  cases x <;> simp [panicOnNone]

@[simp] theorem panicOnNone_some (a : α) : panicOnNone (some a) = .ok a := rfl

theorem satAddU64_of_le {a b c : Nat} (hc : c < U64Max) (h : a + b ≤ c) :
    satAddU64 a b = a + b := by
  have : a + b ≤ U64Max := by omega
  simp [satAddU64, this, Nat.min_eq_left]

theorem borrowAcct_eq {ctx : ExecCtx} {i : Nat} {a : Account}
    (h : ctx.accounts[i]? = some a) : borrowAcct ctx i = .ok a := by
  simp [borrowAcct, h]

theorem keyOfInstrAcct_eq {ctx : ExecCtx} {i : Nat} {a : Account}
    (h : ctx.accounts[i]? = some a) : keyOfInstrAcct ctx i = .ok a.key := by
  simp [keyOfInstrAcct, borrowAcct_eq h, Except.map]

theorem isSignerAcct_eq {ctx : ExecCtx} {i : Nat} {a : Account}
    (h : ctx.accounts[i]? = some a) : isSignerAcct ctx i = .ok a.signer := by
  simp [isSignerAcct, borrowAcct_eq h, Except.map]

theorem checkNumAccounts_ok {ctx : ExecCtx} {n : Nat}
    (h : n ≤ ctx.accounts.length) : checkNumAccounts ctx n = .ok () := by
  simp [checkNumAccounts, failIf, Nat.not_lt.mpr h]

theorem checkRent_ok {ctx : ExecCtx} {i : Nat} {a : Account}
    (h : ctx.accounts[i]? = some a) (hk : a.key = sysvarRentAddr) :
    checkAcctForRentSysvar ctx i = .ok () := by
  simp [checkAcctForRentSysvar, h, hk]

theorem checkClock_ok {ctx : ExecCtx} {i : Nat} {a : Account}
    (h : ctx.accounts[i]? = some a) (hk : a.key = sysvarClockAddr) :
    checkAcctForClockSysvar ctx i = .ok () := by
  simp [checkAcctForClockSysvar, h, hk]

theorem borrowAcct_eq_ok {ctx : ExecCtx} {i : Nat} {a : Account} :
    borrowAcct ctx i = .ok a ↔ ctx.accounts[i]? = some a := by
  unfold borrowAcct
  cases hx : ctx.accounts[i]? <;> simp [hx]

theorem keyOfInstrAcct_eq_ok {ctx : ExecCtx} {i : Nat} {k : Pubkey} :
    keyOfInstrAcct ctx i = .ok k ↔
      ∃ a, ctx.accounts[i]? = some a ∧ a.key = k := by
  unfold keyOfInstrAcct borrowAcct
  cases hx : ctx.accounts[i]? <;> simp [hx, Except.map, eq_comm]

theorem isSignerAcct_eq_ok {ctx : ExecCtx} {i : Nat} {b : Bool} :
    isSignerAcct ctx i = .ok b ↔
      ∃ a, ctx.accounts[i]? = some a ∧ a.signer = b := by
  unfold isSignerAcct borrowAcct
  cases hx : ctx.accounts[i]? <;> simp [hx, Except.map, eq_comm]

theorem checkRent_eq_ok {ctx : ExecCtx} {i : Nat} {u : Unit} :
    checkAcctForRentSysvar ctx i = .ok u ↔
      ∃ a, ctx.accounts[i]? = some a ∧ a.key = sysvarRentAddr := by
  unfold checkAcctForRentSysvar
  cases hx : ctx.accounts[i]?
  · simp [hx]
  · simp only [hx]
    split <;> simp_all

theorem checkClock_eq_ok {ctx : ExecCtx} {i : Nat} {u : Unit} :
    checkAcctForClockSysvar ctx i = .ok u ↔
      ∃ a, ctx.accounts[i]? = some a ∧ a.key = sysvarClockAddr := by
  unfold checkAcctForClockSysvar
  cases hx : ctx.accounts[i]?
  · simp [hx]
  · simp only [hx]
    split <;> simp_all

theorem checkNum_eq_ok {ctx : ExecCtx} {n : Nat} {u : Unit} :
    checkNumAccounts ctx n = .ok u ↔ n ≤ ctx.accounts.length := by
  unfold checkNumAccounts
  simp [failIf_eq_ok, Nat.not_lt]

theorem upgradeProgramCheck_eq_ok {s : UpgradeableLoaderState} {k : Pubkey}
    {u : Unit} :
    upgradeProgramCheck s k = .ok u ↔
      s.typ = stateTypeProgram ∧ s.program.programDataAddress = k := by
  unfold upgradeProgramCheck
  split <;> simp_all [failIf_eq_ok]

theorem upgradeBufferCheck_eq_ok {s : UpgradeableLoaderState} {k : Pubkey}
    {signerE : Except InstrErr Bool} {u : Unit} :
    upgradeBufferCheck s k signerE = .ok u ↔
      s.typ = stateTypeBuffer ∧ s.buffer.authorityAddress = some k ∧
        signerE = .ok true := by
  unfold upgradeBufferCheck
  split <;> simp_all [bind_eq_ok]

theorem upgradeProgramDataCheck_eq_ok {s : UpgradeableLoaderState}
    {clockSlot : Nat} {k : Pubkey} {signerE : Except InstrErr Bool} {u : Unit} :
    upgradeProgramDataCheck s clockSlot k signerE = .ok u ↔
      s.typ = stateTypeProgramData ∧ ¬ clockSlot = s.programData.slot ∧
        s.programData.upgradeAuthorityAddress = some k ∧ signerE = .ok true := by
  unfold upgradeProgramDataCheck
  split
  · cases hcase : s.programData.upgradeAuthorityAddress <;>
      simp_all [bind_eq_ok]
  · simp_all

theorem checkedAddU64_eq_ok {a b c : Nat} :
    checkedAddU64 a b = .ok c ↔ a + b ≤ U64Max ∧ c = a + b := by
  unfold checkedAddU64
  split <;> simp_all [eq_comm]

theorem setLoaderAccountState_zeroTag (data : List Nat)
    (pdv : UpgradeableLoaderStateProgramData) :
    setLoaderAccountState data { stateZero with programData := pdv } =
      .ok data := by
  simp [setLoaderAccountState, marshalUpgradeableLoaderState, stateZero,
    stateTypeUninit, setStateBytes]

theorem updAcct_getElem {l : List Account} {i j : Nat} {f : Account → Account} :
    (updAcct l i f)[j]? = if i = j then Option.map f l[j]? else l[j]? := by
  unfold updAcct
  cases hx : l[i]? with
  | none =>
    by_cases hij : i = j
    · subst hij; simp [hx]
    · simp [hij]
  | some a =>
    have hlt : i < l.length := by
      rcases List.getElem?_eq_some.mp hx with ⟨hl, _⟩
      exact hl
    by_cases hij : i = j
    · subst hij
      simp [hx, List.getElem?_set_eq_of_lt _ hlt]
    · simp [hij, List.getElem?_set_ne hij]

theorem writtenData_spec (data : List Nat) (off : Nat) (bytes : List Nat)
    (h : off + bytes.length ≤ data.length) :
    ((writtenData data off bytes).drop off).take bytes.length = bytes ∧
    (writtenData data off bytes).take off = data.take off ∧
    (writtenData data off bytes).drop (off + bytes.length) =
      data.drop (off + bytes.length) ∧
    (writtenData data off bytes).length = data.length := by
  have hA : (data.take off).length = off := by
    simp [List.length_take]
    omega
  refine ⟨?_, ?_, ?_, ?_⟩
  · rw [writtenData, List.append_assoc, List.drop_left' hA,
      List.take_left' rfl]
  · rw [writtenData, List.append_assoc, List.take_left' hA]
  · have hAB : ((data.take off) ++ bytes).length = off + bytes.length := by
      simp [List.length_append, hA]
    rw [writtenData, List.drop_left' hAB]
  · simp [writtenData, List.length_append, hA, List.length_drop]
    omega

/-! ## C1 -/

/-- C1: the round trip `decode(encode(decode(b))) = decode(b)` FAILS on
the code.  At `b = [0,0,0,0]` (a valid `Uninitialized` record) decoding
succeeds, but the encoder emits no bytes at all -- `MarshalWithEncoder`
never writes the 4-byte little-endian tag (nor the option flags of the
`Buffer` / `ProgramData` variants) -- so re-decoding the encoding fails
with `InvalidAccountData` instead of returning the same state. -/
theorem c1_roundtrip_fails_on_uninitialized :
    unmarshalUpgradeableLoaderState [0, 0, 0, 0] = .ok stateZero ∧
    marshalUpgradeableLoaderState stateZero = some [] ∧
    decodeEncodeDecode [0, 0, 0, 0] = .error .InvalidAccountData := by
  refine ⟨by decide, by decide, by decide⟩

/-! ## C2 -/

/-- C2: FAILS on the code.  On the fully valid `upgradeCtxEx` the
`Upgrade` succeeds, yet the program-data account afterwards still
decodes to the OLD state with slot 42 while `clock.slot = 43`: the new
state is constructed without its `Type` tag (`bpf_loader.go:824`), so
it marshals as the `Uninitialized` variant, which the (also
tag-dropping) encoder turns into zero bytes -- nothing of the new slot
or authority is ever written. -/
theorem c2_upgrade_writes_stale_state :
    (upgradeableLoaderUpgrade upgradeCtxEx).isOk = true ∧
    ((upgradeableLoaderUpgrade upgradeCtxEx).toOption.map
      (fun accts => unmarshalUpgradeableLoaderState
        ((accts.getD 0 acctZero).data))) = some (.ok sPdEx) ∧
    sPdEx.programData.slot = 42 ∧
    upgradeCtxEx.clockSlot = 43 := by
  refine ⟨by decide, by decide, by decide, by decide⟩

/-! ## C3 -/

/-- C3: FAILS on the code.  The buffer account of `deployCtxEx` holds a
valid `Buffer` state with matching signed authority and
`bufferDataLen = 100 > 99 = max_data_len`, so step 2 applied to the
BUFFER account would reach the `AccountDataTooSmall` check; but the
code decodes the buffer state from the PROGRAM account data
(`bpf_loader.go:528`), whose `Uninitialized` tag fails the `Buffer`-tag
test first, and the call returns `InvalidArgument` instead. -/
theorem c3_deploy_decodes_buffer_state_from_program_account :
    upgradeableLoaderDeploy deployCtxEx { maxDataLen := 99 } =
      .fail .InvalidArgument ∧
    unmarshalUpgradeableLoaderState bufDataC3 = .ok sBufEx ∧
    satSubU64 bufDataC3.length sizeOfBufferMetaData = 100 := by
  refine ⟨by decide, by decide, by decide⟩

/-! ## C4 -/

/-- C4: FAILS on the code.  When the buffer account data does not
decode (here: unknown tag 4), `UpgradeableLoaderUpgrade` discards the
error returned by `unmarshalUpgradeableLoaderState`
(`bpf_loader.go:752`) and dereferences the nil state pointer on the
next line -- a Go runtime panic, not the `InvalidAccountData` return
the codec contract prescribes. -/
theorem c4_upgrade_buffer_decode_failure_panics :
    upgradeableLoaderUpgrade upgradeCtxC4 = .goPanic ∧
    unmarshalUpgradeableLoaderState [4, 0, 0, 0] =
      .error .InvalidAccountData := by
  refine ⟨by decide, by decide⟩

/-! ## C5 -/

/-- C5: on a valid `Buffer` with signed matching authority,
`Write(offset, bytes)` succeeds exactly when
`BufferMetaSize + offset + len(bytes)` fits in the buffer data: on
success the account data becomes `writtenData` (segment
`[37+offset .. 37+offset+len)` equals `bytes`, every other byte and the
length unchanged, and no other account is touched); when the saturating
end exceeds the data length it fails with `AccountDataTooSmall` before
any mutation. -/
theorem c5_write_effect_and_bounds (ctx : ExecCtx)
    (w : UpgradeableLoaderInstrWrite) (buffer auth : Account)
    (s : UpgradeableLoaderState) (a : Pubkey)
    (hn : 2 ≤ ctx.accounts.length)
    (h0 : ctx.accounts[0]? = some buffer)
    (hs : unmarshalUpgradeableLoaderState buffer.data = .ok s)
    (ht : s.typ = stateTypeBuffer)
    (ha : s.buffer.authorityAddress = some a)
    (h1 : ctx.accounts[1]? = some auth)
    (hk : a = auth.key)
    (hsg : auth.signer = true)
    (hGo : buffer.data.length < U64Max) :
    (sizeOfBufferMetaData + w.offset + w.bytes.length ≤ buffer.data.length →
      upgradeableLoaderWrite ctx w = .ok (ctx.accounts.set 0
        { buffer with data :=
            writtenData buffer.data (sizeOfBufferMetaData + w.offset) w.bytes }) ∧
      ((writtenData buffer.data (sizeOfBufferMetaData + w.offset) w.bytes).drop
          (sizeOfBufferMetaData + w.offset)).take w.bytes.length = w.bytes ∧
      (writtenData buffer.data (sizeOfBufferMetaData + w.offset) w.bytes).take
          (sizeOfBufferMetaData + w.offset) =
        buffer.data.take (sizeOfBufferMetaData + w.offset) ∧
      (writtenData buffer.data (sizeOfBufferMetaData + w.offset) w.bytes).drop
          (sizeOfBufferMetaData + w.offset + w.bytes.length) =
        buffer.data.drop (sizeOfBufferMetaData + w.offset + w.bytes.length) ∧
      (writtenData buffer.data (sizeOfBufferMetaData + w.offset) w.bytes).length =
        buffer.data.length) ∧
    (buffer.data.length < satAddU64 (sizeOfBufferMetaData + w.offset)
        w.bytes.length →
      upgradeableLoaderWrite ctx w = .fail .AccountDataTooSmall) := by
  have hauth : writeAuthorityCheck s (keyOfInstrAcct ctx 1)
      (isSignerAcct ctx 1) = .ok () := by
    simp [writeAuthorityCheck, ht, ha, keyOfInstrAcct_eq h1,
      isSignerAcct_eq h1, failIf, hk, hsg]
  constructor
  · intro hle
    have hsat : satAddU64 (sizeOfBufferMetaData + w.offset) w.bytes.length =
        sizeOfBufferMetaData + w.offset + w.bytes.length :=
      satAddU64_of_le hGo hle
    have hnl : ¬ buffer.data.length <
        satAddU64 (sizeOfBufferMetaData + w.offset) w.bytes.length := by omega
    refine ⟨?_, writtenData_spec buffer.data _ w.bytes hle⟩
    simp [upgradeableLoaderWrite, checkNumAccounts_ok hn, borrowAcct_eq h0, hs,
      hauth, writeProgramData, h0, hnl, copyInto, hsat, writtenData]
    omega
  · intro hlt
    simp [upgradeableLoaderWrite, checkNumAccounts_ok hn, borrowAcct_eq h0, hs,
      hauth, writeProgramData, h0, hlt]

/-- C5 witness, scenario B2 of the spec plus a successful write: on the
41-byte buffer, `Write(2, 4 bytes)` needs 43 bytes and fails with
`AccountDataTooSmall`, while `Write(0, 4 bytes)` succeeds and replaces
exactly the four payload bytes. -/
theorem c5_write_effect_and_bounds_witness :
    upgradeableLoaderWrite writeCtxEx
      { offset := 2, bytes := [170, 187, 204, 221] } =
      .fail .AccountDataTooSmall ∧
    upgradeableLoaderWrite writeCtxEx
      { offset := 0, bytes := [222, 173, 190, 239] } =
      .ok (writeCtxEx.accounts.set 0
        { writeBufAcctEx with data := writtenData writeBufAcctEx.data (sizeOfBufferMetaData + 0) [222, 173, 190, 239] }) :=
  ⟨(c5_write_effect_and_bounds writeCtxEx
      { offset := 2, bytes := [170, 187, 204, 221] } writeBufAcctEx authAcctEx
      sBufEx keyA (by decide) (by decide) (by decide) (by decide) (by decide)
      (by decide) (by decide) (by decide) (by decide)).2 (by decide),
   ((c5_write_effect_and_bounds writeCtxEx
      { offset := 0, bytes := [222, 173, 190, 239] } writeBufAcctEx authAcctEx
      sBufEx keyA (by decide) (by decide) (by decide) (by decide) (by decide)
      (by decide) (by decide) (by decide) (by decide)).1 (by decide)).1⟩

/-! ## C6 -/

/-- C6 counterexample: the claim as stated is false.  On
`upgradeCtxC6` the `Upgrade` succeeds, but
`programData.lamports + buffer.lamports = 2^65 - 2` saturates the
`uint64` sum at `bpf_loader.go:853`, so the spill only receives
`2^64 - 1 - MinBalance` lamports and the combined balance of the three
mutated accounts drops from `2^65 - 2` to `2^64 - 1`: lamports are
destroyed, not conserved. -/
theorem c6_lamports_not_conserved_on_saturation :
    ((upgradeableLoaderUpgrade upgradeCtxC6).toOption.map lamSum3) =
      some (2 ^ 64 - 1) ∧
    lamSum3 upgradeCtxC6.accounts = 2 ^ 65 - 2 ∧
    (2 ^ 64 - 1 : Nat) ≠ 2 ^ 65 - 2 := by
  refine ⟨by decide, by decide, by decide⟩

/-- C6 as amended: for EVERY successful `Upgrade` in which the combined
`programData.lamports + buffer.lamports` does not exceed the `uint64`
maximum (so the saturating addition is exact), the lamports of the
three mutated accounts are conserved, the buffer ends at 0 lamports and
the program-data account ends at
`max (MinimumBalance (len programData.data)) 1` -- which equals the
rent `MinimumBalance` whenever the latter is at least 1. -/
theorem c6_upgrade_lamport_conservation (ctx : ExecCtx)
    (accts : List Account) (pd buf spill : Account)
    (h0 : ctx.accounts[0]? = some pd)
    (h2 : ctx.accounts[2]? = some buf)
    (h3 : ctx.accounts[3]? = some spill)
    (hNoSat : pd.lamports + buf.lamports ≤ U64Max)
    (h : upgradeableLoaderUpgrade ctx = .ok accts) :
    lamSum3 accts = lamSum3 ctx.accounts ∧
    (accts.getD 2 acctZero).lamports = 0 ∧
    (accts.getD 0 acctZero).lamports =
      max (ctx.minimumBalance pd.data.length) 1 ∧
    (1 ≤ ctx.minimumBalance pd.data.length →
      (accts.getD 0 acctZero).lamports = ctx.minimumBalance pd.data.length) := by
  simp [upgradeableLoaderUpgrade, bind_eq_ok, liftE_eq_ok, failIf_eq_ok,
    nilDeref_eq_ok, panicOnNone_eq_ok, borrowAcct_eq_ok,
    keyOfInstrAcct_eq_ok, isSignerAcct_eq_ok, checkRent_eq_ok, checkClock_eq_ok,
    checkNum_eq_ok, upgradeProgramCheck_eq_ok, upgradeBufferCheck_eq_ok,
    upgradeProgramDataCheck_eq_ok, checkedAddU64_eq_ok,
    setLoaderAccountState_zeroTag, h0, h2, h3] at h
  obtain ⟨hn3, ⟨a4, h4, h4k⟩, ⟨a5, h5, h5k⟩, hn7, auth, h6, prog, h1, hex, hwr,
    hown, sP, hsP, ⟨hPt, hPd⟩, sB, hsB, ⟨hBt, hBa, authsg, h6b, hsg⟩,
    ⟨hb1, hb2⟩, hpdl, hfunds, sPD, hsPD, ⟨hPDt, hslot, hupa, authsg2, h6c, hsg2⟩,
    hdst, h37, spillNew, ⟨hov, hspN⟩, hchain⟩ := h
  subst hchain
  subst hspN
  simp only [lamSum3, List.getD_eq_getD_get?, List.get?_eq_getElem?,
    updAcct_getElem, h0, h2, h3]
  norm_num
  simp only [satAddU64, satSubU64, U64Max] at hfunds hNoSat ⊢
  simp only [Nat.min_eq_left hNoSat] at hfunds ⊢
  by_cases hmb : 1 < ctx.minimumBalance pd.data.length
  · simp only [if_pos hmb, Nat.max_def] at hfunds ⊢
    refine ⟨by omega, by split <;> omega, fun hm1 => by omega⟩
  · simp only [if_neg hmb, Nat.max_def] at hfunds ⊢
    refine ⟨by omega, by split <;> omega, fun hm1 => by omega⟩

/-- C6 witness: the conservation theorem applied to the concrete
successful upgrade `upgradeCtxEx` with output `upgradeCtxExOut`
(balances 100 + 50 + 0 before, 5 + 0 + 145 after). -/
theorem c6_upgrade_lamport_conservation_witness :
    lamSum3 upgradeCtxExOut = lamSum3 upgradeCtxEx.accounts ∧
    (upgradeCtxExOut.getD 2 acctZero).lamports = 0 ∧
    (upgradeCtxExOut.getD 0 acctZero).lamports =
      max (upgradeCtxEx.minimumBalance pdAcctEx.data.length) 1 ∧
    (1 ≤ upgradeCtxEx.minimumBalance pdAcctEx.data.length →
      (upgradeCtxExOut.getD 0 acctZero).lamports =
        upgradeCtxEx.minimumBalance pdAcctEx.data.length) :=
  c6_upgrade_lamport_conservation upgradeCtxEx upgradeCtxExOut pdAcctEx
    bufAcctEx spillAcctEx (by decide) (by decide) (by decide) (by decide)
    (by decide)

/-! ## C7 -/

/-- C7: the `Write` authority taxonomy, exactly in source order.  On a
`Buffer` state: a `None` authority fails with `Immutable`; an authority
different from the key of instruction account 1 fails with
`IncorrectAuthority`; a matching but non-signing authority fails with
`MissingRequiredSignature`.  Any decoded state whose tag is not
`Buffer` fails with `InvalidAccountData`, as does an undecodable
state. -/
theorem c7_write_error_taxonomy (ctx : ExecCtx)
    (w : UpgradeableLoaderInstrWrite) (buffer : Account)
    (hn : 2 ≤ ctx.accounts.length)
    (h0 : ctx.accounts[0]? = some buffer) :
    (∀ s, unmarshalUpgradeableLoaderState buffer.data = .ok s →
      s.typ = stateTypeBuffer → s.buffer.authorityAddress = none →
      upgradeableLoaderWrite ctx w = .fail .Immutable) ∧
    (∀ s a auth, unmarshalUpgradeableLoaderState buffer.data = .ok s →
      s.typ = stateTypeBuffer → s.buffer.authorityAddress = some a →
      ctx.accounts[1]? = some auth → ¬ a = auth.key →
      upgradeableLoaderWrite ctx w = .fail .IncorrectAuthority) ∧
    (∀ s a auth, unmarshalUpgradeableLoaderState buffer.data = .ok s →
      s.typ = stateTypeBuffer → s.buffer.authorityAddress = some a →
      ctx.accounts[1]? = some auth → a = auth.key → auth.signer = false →
      upgradeableLoaderWrite ctx w = .fail .MissingRequiredSignature) ∧
    (∀ s, unmarshalUpgradeableLoaderState buffer.data = .ok s →
      ¬ s.typ = stateTypeBuffer →
      upgradeableLoaderWrite ctx w = .fail .InvalidAccountData) ∧
    (unmarshalUpgradeableLoaderState buffer.data =
        .error .InvalidAccountData →
      upgradeableLoaderWrite ctx w = .fail .InvalidAccountData) := by
  refine ⟨?_, ?_, ?_, ?_, ?_⟩
  · intro s hs ht hnone
    simp [upgradeableLoaderWrite, checkNumAccounts_ok hn, borrowAcct_eq h0, hs,
      writeAuthorityCheck, ht, hnone]
  · intro s a auth hs ht ha h1 hne
    simp [upgradeableLoaderWrite, checkNumAccounts_ok hn, borrowAcct_eq h0, hs,
      writeAuthorityCheck, ht, ha, keyOfInstrAcct_eq h1, failIf, hne]
  · intro s a auth hs ht ha h1 heq hsg
    simp [upgradeableLoaderWrite, checkNumAccounts_ok hn, borrowAcct_eq h0, hs,
      writeAuthorityCheck, ht, ha, keyOfInstrAcct_eq h1, isSignerAcct_eq h1,
      failIf, heq, hsg]
  · intro s hs ht
    simp [upgradeableLoaderWrite, checkNumAccounts_ok hn, borrowAcct_eq h0, hs,
      writeAuthorityCheck, ht]
  · intro hs
    simp [upgradeableLoaderWrite, checkNumAccounts_ok hn, borrowAcct_eq h0, hs]

/-- C7 witness, scenario B3 of the spec: a `Write` against the buffer
whose state bytes are `01 00 00 00 00` (authority = None) fails with
`Immutable`. -/
theorem c7_write_error_taxonomy_witness :
    upgradeableLoaderWrite writeCtxImmut { offset := 0, bytes := [] } =
      .fail .Immutable :=
  (c7_write_error_taxonomy writeCtxImmut { offset := 0, bytes := [] }
    immutBufAcctEx (by decide) (by decide)).1 sImmutEx (by decide) (by decide)
    (by decide)

/-! ## C8 -/

/-- C8: every `Upgrade` that reaches the program-data state check with
a valid `ProgramData` state and `clock.slot = programData.slot` fails
with `InvalidArgument` (`bpf_loader.go:801-804`).  The hypotheses are
exactly the checks the handler performs before that point. -/
theorem c8_upgrade_same_slot_invalid_argument (ctx : ExecCtx)
    (pd prog buf a4 a5 auth : Account) (sP sB sPD : UpgradeableLoaderState)
    (hn : 7 ≤ ctx.accounts.length)
    (h0 : ctx.accounts[0]? = some pd)
    (h1 : ctx.accounts[1]? = some prog)
    (h2 : ctx.accounts[2]? = some buf)
    (h4 : ctx.accounts[4]? = some a4) (h4k : a4.key = sysvarRentAddr)
    (h5 : ctx.accounts[5]? = some a5) (h5k : a5.key = sysvarClockAddr)
    (h6 : ctx.accounts[6]? = some auth)
    (hex : prog.executable = true)
    (hw : prog.writable = true)
    (hown : prog.owner = ctx.programId)
    (hsP : unmarshalUpgradeableLoaderState prog.data = .ok sP)
    (hPt : sP.typ = stateTypeProgram)
    (hPd : sP.program.programDataAddress = pd.key)
    (hsB : unmarshalUpgradeableLoaderState buf.data = .ok sB)
    (hBt : sB.typ = stateTypeBuffer)
    (hBa : sB.buffer.authorityAddress = some auth.key)
    (hsg : auth.signer = true)
    (hblen : sizeOfBufferMetaData < buf.data.length)
    (hpdlen : sizeOfProgramData (satSubU64 buf.data.length sizeOfBufferMetaData) ≤
      pd.data.length)
    (hfunds : (if ctx.minimumBalance pd.data.length > 1 then
      ctx.minimumBalance pd.data.length else 1) ≤
      satAddU64 pd.lamports buf.lamports)
    (hsPD : unmarshalUpgradeableLoaderState pd.data = .ok sPD)
    (hPDt : sPD.typ = stateTypeProgramData)
    (hslot : ctx.clockSlot = sPD.programData.slot) :
    upgradeableLoaderUpgrade ctx = .fail .InvalidArgument := by
  have hn3 : 3 ≤ ctx.accounts.length := by omega
  have hlen2 : ¬ (buf.data.length < sizeOfBufferMetaData ∨
      satSubU64 buf.data.length sizeOfBufferMetaData = 0) := by
    simp [satSubU64, sizeOfBufferMetaData] at hblen ⊢
    omega
  have hpdlen2 : ¬ (pd.data.length <
      sizeOfProgramData (satSubU64 buf.data.length sizeOfBufferMetaData)) := by
    omega
  have hfunds2 : ¬ (satAddU64 pd.lamports buf.lamports <
      (if ctx.minimumBalance pd.data.length > 1 then
        ctx.minimumBalance pd.data.length else 1)) := by
    omega
  have hbc : upgradeBufferCheck sB auth.key (isSignerAcct ctx 6) = .ok () := by
    simp [upgradeBufferCheck, hBt, failIf, hBa, isSignerAcct_eq h6, hsg]
  have hpdc : upgradeProgramDataCheck sPD ctx.clockSlot auth.key
      (isSignerAcct ctx 6) = .fail .InvalidArgument := by
    simp [upgradeProgramDataCheck, hPDt, failIf, hslot]
  simp [upgradeableLoaderUpgrade, checkNumAccounts_ok hn, checkNumAccounts_ok hn3,
    keyOfInstrAcct_eq h0, keyOfInstrAcct_eq h6, checkRent_ok h4 h4k,
    checkClock_ok h5 h5k, borrowAcct_eq h1, borrowAcct_eq h2, borrowAcct_eq h0,
    failIf, hex, hw, hown, hsP, upgradeProgramCheck, hPt, hPd, hsB, hbc,
    hlen2, hpdlen2, hfunds2, hsPD, hpdc]

/-- C8 witness, scenario B5 of the spec:
`programData.slot = clock.slot = 42` fails with `InvalidArgument`. -/
theorem c8_upgrade_same_slot_invalid_argument_witness :
    upgradeableLoaderUpgrade upgradeCtxC8 = .fail .InvalidArgument :=
  c8_upgrade_same_slot_invalid_argument upgradeCtxC8 pdAcctEx progAcctEx
    bufAcctEx rentAcctEx clockAcctEx authAcctEx sProgEx sBufEx sPdEx
    (by decide) (by decide) (by decide) (by decide) (by decide) (by decide)
    (by decide) (by decide) (by decide) (by decide) (by decide) (by decide)
    (by decide) (by decide) (by decide) (by decide) (by decide) (by decide)
    (by decide) (by decide) (by decide) (by decide) (by decide) (by decide)
    (by decide)

/-! ## C9 -/

/-- C9: the dispatcher returns `InvalidInstructionData` -- without
reaching any handler, so no account is touched -- whenever the opcode
header is missing, the opcode is outside `{0,1,2,3}` (which covers the
reserved opcodes 4..7), or the payload of opcode 1 or 2 fails to
decode. -/
theorem c9_dispatch_unknown_opcode_rejected (ctx : ExecCtx) (d : List Nat) :
    (readU32LE d = none →
      processUpgradeableLoaderInstruction ctx d = .fail .InvalidInstructionData) ∧
    (∀ op rest, readU32LE d = some (op, rest) →
      ¬ op = 0 → ¬ op = 1 → ¬ op = 2 → ¬ op = 3 →
      processUpgradeableLoaderInstruction ctx d =
        .fail .InvalidInstructionData) ∧
    (∀ rest, readU32LE d = some (1, rest) → writeInstrDecode rest = none →
      processUpgradeableLoaderInstruction ctx d =
        .fail .InvalidInstructionData) ∧
    (∀ rest, readU32LE d = some (2, rest) → deployInstrDecode rest = none →
      processUpgradeableLoaderInstruction ctx d =
        .fail .InvalidInstructionData) := by
  refine ⟨?_, ?_, ?_, ?_⟩
  · intro hr
    simp [processUpgradeableLoaderInstruction, hr]
  · intro op rest hr h0 h1 h2 h3
    simp [processUpgradeableLoaderInstruction, hr, h0, h1, h2, h3]
  · intro rest hr hw
    simp [processUpgradeableLoaderInstruction, hr, hw]
  · intro rest hr hd
    simp [processUpgradeableLoaderInstruction, hr, hd]

/-- C9 witness: reserved opcode 4, a truncated header, and truncated
payloads for opcodes 1 and 2 all yield `InvalidInstructionData`. -/
theorem c9_dispatch_unknown_opcode_rejected_witness :
    processUpgradeableLoaderInstruction upgradeCtxEx [4, 0, 0, 0] =
      .fail .InvalidInstructionData ∧
    processUpgradeableLoaderInstruction upgradeCtxEx [] =
      .fail .InvalidInstructionData ∧
    processUpgradeableLoaderInstruction upgradeCtxEx [1, 0, 0, 0] =
      .fail .InvalidInstructionData ∧
    processUpgradeableLoaderInstruction upgradeCtxEx [2, 0, 0, 0] =
      .fail .InvalidInstructionData :=
  ⟨(c9_dispatch_unknown_opcode_rejected upgradeCtxEx [4, 0, 0, 0]).2.1 4 []
      (by decide) (by decide) (by decide) (by decide) (by decide),
   (c9_dispatch_unknown_opcode_rejected upgradeCtxEx []).1 (by decide),
   (c9_dispatch_unknown_opcode_rejected upgradeCtxEx [1, 0, 0, 0]).2.2.1 []
      (by decide) (by decide),
   (c9_dispatch_unknown_opcode_rejected upgradeCtxEx [2, 0, 0, 0]).2.2.2 []
      (by decide) (by decide)⟩

/-! ## C10 -/

/-- C10 counterexample: the claim as stated is false.  The buffer
account of `initCtxC10` decodes to `Uninitialized`, yet the call does
NOT succeed: the serialized `Buffer` state (32 bytes under the source
encoder, which emits only the raw authority key) does not fit in the
4-byte account data, so the host `SetState` fails with
`AccountDataTooSmall`. -/
theorem c10_initbuffer_fails_on_small_account :
    upgradeableLoaderInitBuffer initCtxC10 = .fail .AccountDataTooSmall ∧
    unmarshalUpgradeableLoaderState [0, 0, 0, 0] = .ok stateZero := by
  refine ⟨by decide, by decide⟩

/-- C10 as amended: for every `InitializeBuffer` call with at least two
instruction accounts whose buffer decodes to `Uninitialized` and whose
data can hold the serialized `Buffer` state (32 bytes under this
encoder), the instruction succeeds and writes the marshalled
`Buffer{authority = Some(key of account 1)}` bytes into the data
prefix.  No signer check is performed: the theorem carries no
hypothesis on any signer flag, so the result is the same whether or not
account 1 (or any account) signed. -/
theorem c10_initbuffer_no_signer_check (ctx : ExecCtx)
    (buffer auth : Account) (s : UpgradeableLoaderState)
    (hn : 2 ≤ ctx.accounts.length)
    (h0 : ctx.accounts[0]? = some buffer)
    (h1 : ctx.accounts[1]? = some auth)
    (hs : unmarshalUpgradeableLoaderState buffer.data = .ok s)
    (ht : s.typ = stateTypeUninit)
    (hk : auth.key.length = 32)
    (hcap : 32 ≤ buffer.data.length) :
    upgradeableLoaderInitBuffer ctx = .ok (ctx.accounts.set 0
      { buffer with data := auth.key ++ buffer.data.drop 32 }) := by
  have hfit : ¬ buffer.data.length < 32 := by omega
  simp [upgradeableLoaderInitBuffer, checkNumAccounts_ok hn, borrowAcct_eq h0,
    hs, failIf, ht, keyOfInstrAcct_eq h1, setLoaderAccountState,
    marshalUpgradeableLoaderState, stateTypeUninit, stateTypeBuffer,
    setStateBytes, hfit, updAcct, h0, hk]

/-- C10 amended witness: a 36-byte `Uninitialized` buffer and a
NON-signing authority; the call succeeds and the authority key lands in
the data prefix. -/
theorem c10_initbuffer_no_signer_check_witness :
    upgradeableLoaderInitBuffer initCtxC10b = .ok (initCtxC10b.accounts.set 0
      { c10bBufAcct with data := c10bAuthAcct.key ++ c10bBufAcct.data.drop 32 }) :=
  c10_initbuffer_no_signer_check initCtxC10b c10bBufAcct c10bAuthAcct stateZero
    (by decide) (by decide) (by decide) (by decide) (by decide) (by decide)
    (by decide)

end Sealevel
